import Mathlib

/-!
Verification development for the rcmp123 marketplace backend.

The Python source is shallowly embedded: each endpoint becomes a pure Lean
function from an explicit state (users, listings, rate-limiter records) and
request data to a response and a new state.  Machine integers are modelled by
Int/Nat.  Prices are Python floats in the source; they are modelled as the
rationals they denote exactly, with binary64 rounding (roundToDouble: round
to nearest, ties to even, 53-bit significand) applied wherever the source
performs a float operation whose result feeds an observable value, so that
e.g. 19.99 * 100 evaluates to 1998.9999999999998 as it does in the program.
External libraries (Stripe signature verification, PyJWT, bcrypt) are
modelled by explicit computable stand-ins that preserve the control flow the
source depends on.
-/

namespace RCMP

/-- HTTP-level outcome of an endpoint: a 200 JSON body, or an HTTPException
with a status code and detail string. -/
inductive HttpResponse where
  | ok (body : String)
  | err (status : Nat) (detail : String)
deriving DecidableEq, Repr

/-- User row (src/rcmp123/backend/app.py, class User; the flat src/app.py
model is the same minus the payout account, here represented by
stripe_account_id = none). -/
structure User where
  id : Int
  username : String
  hashed_password : String
  stripe_account_id : Option String
deriving DecidableEq, Repr

/-- Listing row (class Listing in both backends). -/
structure Listing where
  id : Int
  title : String
  description : String
  price : Rat
  seller_id : Int
  image_path : String
  sold : Bool
deriving DecidableEq, Repr

/-- Lookup of a user by primary key (session.get(User, id)): the first row
with that id. -/
def findUserById : List User → Int → Option User
  | [], _ => none
  | u :: us, i => if u.id = i then some u else findUserById us i

/-- Lookup of a user by username (select(User).where(User.username == ...)
followed by .first()). -/
def findUserByName : List User → String → Option User
  | [], _ => none
  | u :: us, name =>
    if u.username = name then some u else findUserByName us name

/-- Lookup of a listing by primary key: the first row with that id. -/
def findListing : List Listing → Int → Option Listing
  | [], _ => none
  | l :: ls, i => if l.id = i then some l else findListing ls i

/-- Python int() applied to a number: truncation toward zero. -/
def pyTrunc (q : Rat) : Int :=
  if 0 ≤ q then Int.floor q else Int.ceil q

/-- Python round() applied to a number: round half to even (the documented
behavior of round() on Python 3 numbers). -/
def pyRound (q : Rat) : Int :=
  let f := Int.floor q
  let frac := q - (f : Rat)
  if frac < 1/2 then f
  else if 1/2 < frac then f + 1
  else if f % 2 = 0 then f else f + 1

/-- Round a rational to the nearest IEEE-754 binary64 double, ties to even:
the significand is rounded to 53 bits at the binade given by Int.log 2.
Exponent overflow and subnormal underflow cannot occur at price magnitudes
and are not modelled.  This embeds the rounding a Python float operation
performs on its exact result; roundToDouble (1999/100) is the double the
literal 19.99 denotes. -/
def roundToDouble (q : Rat) : Rat :=
  if q = 0 then 0
  else
    ((pyRound (q / 2 ^ (Int.log 2 |q| - 52)) : Rat)) *
      2 ^ (Int.log 2 |q| - 52)

/-- Definition following the words of the specification claim only (not the
source): rounding half away from zero.  Used to compare the stated rounding
contract with what the code computes. -/
def roundHalfAwayFromZero (q : Rat) : Int :=
  if 0 ≤ q then Int.floor (q + 1/2) else Int.ceil (q - 1/2)

end RCMP

namespace RCMP.App

/-- The payment-processor request constructed by the flat backend
(src/app.py, create_checkout_session): stripe.checkout.Session.create with
unit_amount, currency, customer email, product name and the listing id
carried as metadata. -/
structure CheckoutReq where
  unit_amount : Int
  currency : String
  customer_email : String
  product_name : String
  metadata_listing_id : Int
deriving DecidableEq, Repr

/-- src/app.py, create_checkout_session (lines 146-184): look the listing up,
reject missing (404) and sold (400) listings, compute
price_cents = int(float(price) * 100) and build the processor request.  The
stored price is a binary64 double; the product price * 100 is computed in
binary64 (the exact product rounded to the nearest double, ties to even) and
int() truncates it toward zero.  The external Stripe call is modelled as
succeeding; on success the endpoint returns the redirect URL and the request
that was sent.  No local state is written. -/
def create_checkout_session (listings : List RCMP.Listing) (listing_id : Int)
    (buyer_email : String) : RCMP.HttpResponse × Option CheckoutReq :=
  match RCMP.findListing listings listing_id with
  | none => (.err 404 "Listing not found", none)
  | some listing =>
    if listing.sold then (.err 400 "Listing already sold", none)
    else
      let price_cents :=
        RCMP.pyTrunc (RCMP.roundToDouble (listing.price * 100))
      (.ok "checkout_url",
       some ⟨price_cents, "usd", buyer_email, listing.title, listing.id⟩)

end RCMP.App

namespace RCMP.Backend

/-- PLATFORM_FEE_CENTS from src/rcmp123/backend/app.py line 24. -/
def PLATFORM_FEE_CENTS : Int := 123

/-- The payment-processor request constructed by the Connect backend
(src/rcmp123/backend/app.py, create_checkout_session): unit_amount plus the
payment_intent_data fee split (application_fee_amount and
transfer_data.destination). -/
structure CheckoutReq where
  unit_amount : Int
  currency : String
  customer_email : String
  product_name : String
  application_fee_amount : Int
  destination : String
deriving DecidableEq, Repr

/-- src/rcmp123/backend/app.py, create_checkout_session (lines 225-274):
require the Stripe key to be configured, look the listing up (404 if absent,
400 if sold), require the seller to exist and carry a Stripe Connect account
(400 otherwise), compute amount_cents = int(round(price * 100)) and build the
fee-splitting processor request.  The stored price is a binary64 double; the
product price * 100 is computed in binary64 and Python round() rounds the
resulting double half to even (int() on the resulting int is the identity).
No local state is written. -/
def create_checkout_session (stripe_key : String) (users : List RCMP.User)
    (listings : List RCMP.Listing) (listing_id : Int) (buyer_email : String) :
    RCMP.HttpResponse × Option CheckoutReq :=
  if stripe_key = "" then
    (.err 500 "Stripe not configured (missing STRIPE_SECRET_KEY)", none)
  else
    match RCMP.findListing listings listing_id with
    | none => (.err 404 "Listing not found", none)
    | some listing =>
      if listing.sold then (.err 400 "Listing already sold", none)
      else
        match RCMP.findUserById users listing.seller_id with
        | none => (.err 400 "Seller not connected to Stripe", none)
        | some seller =>
          match seller.stripe_account_id with
          | none => (.err 400 "Seller not connected to Stripe", none)
          | some acct =>
            let amount_cents :=
              RCMP.pyRound (RCMP.roundToDouble (listing.price * 100))
            (.ok "checkout_url",
             some ⟨amount_cents, "usd", buyer_email, listing.title,
                   PLATFORM_FEE_CENTS, acct⟩)

end RCMP.Backend

namespace RCMP

/-- The JSON document carried by a webhook request, already tokenized: the
event kind string and the listing id from the metadata object (the source
applies int() to the metadata value; the conversion is modelled as already
done, faithful whenever the metadata holds an integer, which the claims
assume). -/
structure WebhookBody where
  event_type : String
  metadata_listing_id : Int
deriving DecidableEq, Repr

/-- A parsed Stripe event, as produced by stripe.Webhook.construct_event on
success. -/
structure StripeEvent where
  event_type : String
  listing_id : Int
deriving DecidableEq, Repr

/-- An HMAC tag over a raw body.  Modelled from the external Stripe library:
the HMAC-SHA256 of the body under the shared secret, idealised as a perfectly
collision-resistant tag, represented by the pair it authenticates. -/
structure WebhookSig where
  mac_secret : String
  mac_body : WebhookBody
deriving DecidableEq, Repr

/-- The signature the processor attaches to a body under a given secret. -/
def computeSignature (secret : String) (body : WebhookBody) : WebhookSig :=
  ⟨secret, body⟩

/-- stripe.Webhook.construct_event, parameterized by the JSON-to-event
parsing step: it first verifies the signature header over the raw body and
only on success parses the body; a missing or mismatched signature raises
(here: returns an error) without the parse function ever being applied. -/
def constructEventWith (parse : WebhookBody → Option StripeEvent)
    (body : WebhookBody) (sig_header : Option WebhookSig) (secret : String) :
    Except String StripeEvent :=
  if sig_header = some (computeSignature secret body) then
    match parse body with
    | some event => .ok event
    | none => .error "Invalid payload"
  else .error "Invalid signature"

/-- The parsing step used by the real handler: the tokenized JSON body maps
directly onto the event structure. -/
def parseStripeEvent (body : WebhookBody) : Option StripeEvent :=
  some ⟨body.event_type, body.metadata_listing_id⟩

/-- Mark the first listing with the given id as sold (the source selects the
first matching row and sets listing.sold = True). -/
def markSold : List Listing → Int → List Listing
  | [], _ => []
  | l :: ls, i =>
    if l.id = i then { l with sold := true } :: ls else l :: markSold ls i

/-- Outcome of one webhook delivery: the HTTP response, the listing table
afterwards, and the trace of listing ids that were looked up during the
request (used to state that unverified requests trigger no lookup). -/
structure WebhookOut where
  response : HttpResponse
  listings : List Listing
  looked_up : List Int
deriving DecidableEq, Repr

/-- src/app.py, stripe_webhook (lines 186-211), parameterized by the parsing
step inside construct_event: require the webhook secret to be configured
(500 otherwise), verify-then-parse via construct_event (400 on failure), and
only for a "checkout.session.completed" event look the listing up and mark it
sold when present; every path answers with a success acknowledgment once
verification passed. -/
def stripeWebhookWith (parse : WebhookBody → Option StripeEvent)
    (webhook_secret : Option String) (listings : List Listing)
    (body : WebhookBody) (sig_header : Option WebhookSig) : WebhookOut :=
  match webhook_secret with
  | none => ⟨.err 500 "Missing STRIPE_WEBHOOK_SECRET", listings, []⟩
  | some secret =>
    match constructEventWith parse body sig_header secret with
    | .error e => ⟨.err 400 ("Webhook error: " ++ e), listings, []⟩
    | .ok event =>
      if event.event_type = "checkout.session.completed" then
        match findListing listings event.listing_id with
        | some _ =>
          ⟨.ok "success", markSold listings event.listing_id,
           [event.listing_id]⟩
        | none => ⟨.ok "success", listings, [event.listing_id]⟩
      else ⟨.ok "success", listings, []⟩

/-- The webhook endpoint as deployed: construct_event parses with
parseStripeEvent. -/
def stripe_webhook (webhook_secret : Option String) (listings : List Listing)
    (body : WebhookBody) (sig_header : Option WebhookSig) : WebhookOut :=
  stripeWebhookWith parseStripeEvent webhook_secret listings body sig_header

end RCMP

namespace RCMP

/-- Claims set of a JWT: subject and expiry (unix seconds; the source sets
exp = utcnow() + 30 minutes). -/
structure JwtPayload where
  sub : String
  exp : Int
deriving DecidableEq, Repr

/-- An HMAC tag over a JWT payload under an algorithm name and a secret.
Modelled from the external PyJWT library, idealised as a perfectly
collision-resistant tag represented by what it authenticates. -/
structure JwtSig where
  tag_alg : String
  tag_secret : String
  tag_payload : JwtPayload
deriving DecidableEq, Repr

/-- A serialized JWT: header algorithm name, claims, and signature. -/
structure Jwt where
  alg : String
  payload : JwtPayload
  sig : JwtSig
deriving DecidableEq, Repr

/-- jwt.encode(payload, secret, algorithm): sign the claims under the given
algorithm name. -/
def jwtEncode (payload : JwtPayload) (secret : String) (alg : String) : Jwt :=
  ⟨alg, payload, ⟨alg, secret, payload⟩⟩

/-- The HMAC algorithm names PyJWT implements.  The string "H256" is not
among them: it is not a registered algorithm, so a token naming it fails
decoding with an unsupported-algorithm error even when the allow-list
mentions it. -/
def supportedAlgorithms : List String := ["HS256", "HS384", "HS512"]

/-- jwt.decode(token, secret, algorithms): reject if the header algorithm is
not in the caller's allow-list (InvalidAlgorithmError), or not an implemented
algorithm (unsupported), or the signature does not verify, or the exp claim
is in the past (ExpiredSignatureError); otherwise return the claims. -/
def jwtDecode (token : Jwt) (secret : String) (algorithms : List String)
    (now : Int) : Option JwtPayload :=
  if token.alg ∈ algorithms then
    if token.alg ∈ supportedAlgorithms then
      if token.sig = ⟨token.alg, secret, token.payload⟩ then
        if token.payload.exp ≤ now then none
        else some token.payload
      else none
    else none
  else none

/-- RESET_TOKEN_SECRET from src/config.py (default value). -/
def RESET_TOKEN_SECRET : String := "changeme12345"

/-- Thirty minutes, in seconds: the fixed expiry window of reset tokens. -/
def RESET_WINDOW_SECONDS : Int := 30 * 60

/-- src/token.py, create_reset_token (lines 5-10): a token with sub =
username and exp = now + 30 minutes, signed HS256 under the reset secret. -/
def create_reset_token (now : Int) (username : String) : Jwt :=
  jwtEncode ⟨username, now + RESET_WINDOW_SECONDS⟩ RESET_TOKEN_SECRET "HS256"

/-- src/token.py, verify_reset_token (lines 12-17): decode with the
allow-list ["H256", "HS256"]; any exception (bad signature, disallowed or
unsupported algorithm, expiry) yields None, otherwise the sub claim. -/
def verify_reset_token (token : Jwt) (now : Int) : Option String :=
  (jwtDecode token RESET_TOKEN_SECRET ["H256", "HS256"] now).map
    (fun p => p.sub)

end RCMP

namespace RCMP

/-- The module-level attempts dict of src/rate_limit.py: caller identifier to
recorded attempt timestamps (seconds, fractional allowed). -/
abbrev AttemptsMap := List (String × List Rat)

/-- attempts[ip], defaulting to the empty record (the source inserts [] on
first sight). -/
def getRecord (m : AttemptsMap) (ip : String) : List Rat :=
  match m.find? (fun e => e.1 = ip) with
  | some e => e.2
  | none => []

/-- Store a record under an identifier, replacing any previous one. -/
def setRecord : AttemptsMap → String → List Rat → AttemptsMap
  | [], ip, ts => [(ip, ts)]
  | e :: m, ip, ts =>
    if e.1 = ip then (ip, ts) :: m else e :: setRecord m ip ts

/-- src/rate_limit.py, rate_limit (lines 5-17): prune timestamps older than
the window (keep t with now - t < window; the pruned record is stored even on
the deny path), deny when the remaining count reaches the limit, otherwise
record this attempt and allow. -/
def rate_limit (attempts : AttemptsMap) (ip : String) (now : Rat)
    (limit : Nat) (window : Rat) : Bool × AttemptsMap :=
  let kept := (getRecord attempts ip).filter (fun t => now - t < window)
  if limit ≤ kept.length then (false, setRecord attempts ip kept)
  else (true, setRecord attempts ip (kept ++ [now]))

end RCMP

namespace RCMP

/-- Modelled from the spec: the security module providing hash_password is
not under src/ (only its caller src/forgot_password.py is); the spec says
only that the credential hash is one-way.  It is modelled as an injective
tagging function, which preserves what the claims depend on: the stored
credential is replaced by a hash of the new password on reset. -/
def hash_password (password : String) : String :=
  "bcrypt." ++ password

/-- passlib verify: check a password against a stored hash (consistent with
the hash_password model). -/
def verify_pw (password : String) (hashed : String) : Bool :=
  hash_password password = hashed

/-- The persistent and process state the endpoints below touch: user rows,
listing rows, and the rate-limiter attempts dict. -/
structure SysState where
  users : List User
  listings : List Listing
  attempts : AttemptsMap
deriving DecidableEq, Repr

/-- Fresh primary key: one past the maximum id in use. -/
def nextId (ids : List Int) : Int :=
  (ids.foldr max 0) + 1

/-- src/forgot_password.py, forgot_password (lines 11-24): look the username
up; 400 "User not found" when absent; otherwise issue a reset token, email it
(external side effect) and answer "Reset link sent".  The endpoint neither
reads nor writes the rate-limiter state and never sees a caller identifier;
the issued token is returned for observation. -/
def forgot_password (s : SysState) (username : String) (now : Int) :
    HttpResponse × SysState × Option Jwt :=
  match findUserByName s.users username with
  | none => (.err 400 "User not found", s, none)
  | some user =>
    let token := create_reset_token now user.username
    (.ok "Reset link sent", s, some token)

/-- Replace the credential hash of the first user with the given username. -/
def updatePassword : List User → String → String → List User
  | [], _, _ => []
  | u :: us, name, h =>
    if u.username = name then { u with hashed_password := h } :: us
    else u :: updatePassword us name h

/-- src/forgot_password.py, reset_password (lines 26-44): verify the token
(400 "Invalid or expired token" on failure), look the bound username up (400
"User not found" when absent), then store the hash of the new password.  No
rate-limiter interaction. -/
def reset_password (s : SysState) (token : Jwt) (password : String)
    (now : Int) : HttpResponse × SysState :=
  match verify_reset_token token now with
  | none => (.err 400 "Invalid or expired token", s)
  | some username =>
    match findUserByName s.users username with
    | none => (.err 400 "User not found", s)
    | some user =>
      (.ok "Password updated",
       { s with users :=
           updatePassword s.users user.username (hash_password password) })

/-- src/rcmp123/backend/app.py, register (lines 124-148): reject a taken
username (400), otherwise insert a user with a fresh id and the hashed
password (the flat backend is the same minus the payout account field). -/
def register (s : SysState) (username password : String)
    (stripe_account_id : Option String) : HttpResponse × SysState :=
  match findUserByName s.users username with
  | some _ => (.err 400 "Username already exists", s)
  | none =>
    let user : User :=
      ⟨nextId (s.users.map (fun u => u.id)), username,
       hash_password password, stripe_account_id⟩
    (.ok "registered", { s with users := s.users ++ [user] })

/-- src/rcmp123/backend/app.py, login (lines 152-166): a pure read; 401 on
unknown username or wrong password. -/
def login (s : SysState) (username password : String) : HttpResponse :=
  match findUserByName s.users username with
  | none => .err 401 "Invalid username or password"
  | some user =>
    if verify_pw password user.hashed_password then .ok "logged in"
    else .err 401 "Invalid username or password"

/-- src/rcmp123/backend/app.py, create_listing (lines 170-200): require the
seller to exist (400), store the uploaded image (external side effect), and
insert a listing with a fresh id and sold = False. -/
def create_listing (s : SysState) (title description : String) (price : Rat)
    (seller_id : Int) (image_filename : String) : HttpResponse × SysState :=
  match findUserById s.users seller_id with
  | none => (.err 400 "Invalid seller_id", s)
  | some seller =>
    let listing : Listing :=
      ⟨nextId (s.listings.map (fun l => l.id)), title, description, price,
       seller.id, "/images/" ++ image_filename, false⟩
    (.ok "created", { s with listings := s.listings ++ [listing] })

/-- One inbound request to any state-relevant endpoint of the system, with
its inputs (webhook requests carry the configured secret alongside, and
time-dependent endpoints carry the clock). -/
inductive SysOp where
  | opRegister (username password : String) (stripe_account_id : Option String)
  | opLogin (username password : String)
  | opCreateListing (title description : String) (price : Rat)
      (seller_id : Int) (image : String)
  | opCheckoutFlat (listing_id : Int) (buyer_email : String)
  | opCheckoutConnect (stripe_key : String) (listing_id : Int)
      (buyer_email : String)
  | opWebhook (webhook_secret : Option String) (body : WebhookBody)
      (sig_header : Option WebhookSig)
  | opForgotPassword (username : String) (now : Int)
  | opResetPassword (token : Jwt) (password : String) (now : Int)

/-- Dispatch: apply one request to the system state.  Checkout creation in
either backend is a pure read of the state; the webhook may mark a listing
sold; registration and listing creation insert rows; password reset updates
one credential hash. -/
def applyOp (op : SysOp) (s : SysState) : HttpResponse × SysState :=
  match op with
  | .opRegister u p a => register s u p a
  | .opLogin u p => (login s u p, s)
  | .opCreateListing t d pr sid img => create_listing s t d pr sid img
  | .opCheckoutFlat lid email =>
    ((App.create_checkout_session s.listings lid email).1, s)
  | .opCheckoutConnect key lid email =>
    ((Backend.create_checkout_session key s.users s.listings lid email).1, s)
  | .opWebhook secret body sig =>
    let out := stripe_webhook secret s.listings body sig
    (out.response, { s with listings := out.listings })
  | .opForgotPassword u now =>
    let r := forgot_password s u now
    (r.1, r.2.1)
  | .opResetPassword tok pw now => reset_password s tok pw now

end RCMP

namespace RCMP

theorem findListing_some_id {ls : List Listing} {i : Int} {l : Listing}
    (h : findListing ls i = some l) : l.id = i := by
  induction ls with
  | nil => simp [findListing] at h
  | cons a as ih =>
    rw [findListing] at h
    by_cases ha : a.id = i
    · rw [if_pos ha] at h
      obtain rfl : a = l := Option.some.inj h
      exact ha
    · rw [if_neg ha] at h
      exact ih h

theorem findListing_append_left {ls : List Listing} {i : Int} {l : Listing}
    (h : findListing ls i = some l) (ls2 : List Listing) :
    findListing (ls ++ ls2) i = some l := by
  induction ls with
  | nil => simp [findListing] at h
  | cons a as ih =>
    rw [findListing] at h
    rw [List.cons_append, findListing]
    by_cases ha : a.id = i
    · rw [if_pos ha] at h ⊢
      exact h
    · rw [if_neg ha] at h ⊢
      exact ih h

theorem findListing_markSold (ls : List Listing) (j i : Int) :
    findListing (markSold ls j) i =
      (findListing ls i).map
        (fun l => if l.id = j then { l with sold := true } else l) := by
  induction ls with
  | nil => rfl
  | cons a as ih =>
    have hmid : (({ a with sold := true } : Listing)).id = a.id := rfl
    by_cases haj : a.id = j
    · by_cases hai : a.id = i
      · rw [markSold, if_pos haj, findListing, if_pos (hmid.trans hai),
          findListing, if_pos hai]
        simp [haj]
      · have hij : i ≠ j := fun h => hai (h ▸ haj)
        rw [markSold, if_pos haj, findListing, if_neg (hmid.trans_ne hai),
          findListing, if_neg hai]
        cases hfind : findListing as i with
        | none => simp
        | some l =>
          have hlid : l.id = i := findListing_some_id hfind
          simp [hlid, hij]
    · rw [markSold, if_neg haj, findListing, findListing]
      by_cases hai : a.id = i
      · rw [if_pos hai, if_pos hai]
        simp [haj]
      · rw [if_neg hai, if_neg hai]
        exact ih

theorem markSold_of_sold {ls : List Listing} {i : Int} {l : Listing}
    (h : findListing ls i = some l) (hs : l.sold = true) :
    markSold ls i = ls := by
  induction ls with
  | nil => rfl
  | cons a as ih =>
    rw [findListing] at h
    rw [markSold]
    by_cases ha : a.id = i
    · rw [if_pos ha] at h
      obtain rfl : a = l := Option.some.inj h
      rw [if_pos ha]
      have hrec : ({ a with sold := true } : Listing) = a := by
        cases a
        simp_all
      rw [hrec]
    · rw [if_neg ha] at h
      rw [if_neg ha, ih h]

theorem stripe_webhook_valid_completed (secret : String) (ls : List Listing)
    (body : WebhookBody)
    (hbody : body.event_type = "checkout.session.completed") :
    stripe_webhook (some secret) ls body
        (some (computeSignature secret body)) =
      match findListing ls body.metadata_listing_id with
      | some _ =>
        ⟨.ok "success", markSold ls body.metadata_listing_id,
         [body.metadata_listing_id]⟩
      | none => ⟨.ok "success", ls, [body.metadata_listing_id]⟩ := by
  simp only [stripe_webhook, stripeWebhookWith, constructEventWith,
    parseStripeEvent, if_pos rfl, hbody]
  cases hf : findListing ls body.metadata_listing_id <;> simp [hf]

/-- C2: delivering the same validly-signed checkout-completed event to the
webhook handler twice yields exactly one observable state change (the
referenced listing goes from unsold to sold on the first delivery) and both
deliveries acknowledge with success; the second delivery, applied to the
already-sold listing, leaves the listing table exactly as it was. -/
theorem webhook_redelivery_idempotent (secret : String) (ls : List Listing)
    (body : WebhookBody) (l : Listing) (out1 out2 : WebhookOut)
    (hbody : body.event_type = "checkout.session.completed")
    (hfound : findListing ls body.metadata_listing_id = some l)
    (hunsold : l.sold = false)
    (h1 : out1 = stripe_webhook (some secret) ls body
        (some (computeSignature secret body)))
    (h2 : out2 = stripe_webhook (some secret) out1.listings body
        (some (computeSignature secret body))) :
    out1.response = .ok "success" ∧
    out2.response = .ok "success" ∧
    l.sold = false ∧
    findListing out1.listings body.metadata_listing_id =
      some { l with sold := true } ∧
    out2.listings = out1.listings := by
  have hout1 : out1 = ⟨.ok "success", markSold ls body.metadata_listing_id,
      [body.metadata_listing_id]⟩ := by
    rw [h1, stripe_webhook_valid_completed secret ls body hbody, hfound]
  have hfind1 : findListing (markSold ls body.metadata_listing_id)
      body.metadata_listing_id = some { l with sold := true } := by
    rw [findListing_markSold, hfound]
    simp [findListing_some_id hfound]
  have hout2 : out2 = ⟨.ok "success", markSold ls body.metadata_listing_id,
      [body.metadata_listing_id]⟩ := by
    rw [h2, stripe_webhook_valid_completed secret _ body hbody, hout1]
    simp only [hfind1]
    rw [markSold_of_sold hfind1 rfl]
  refine ⟨?_, ?_, hunsold, ?_, ?_⟩
  · rw [hout1]
  · rw [hout2]
  · rw [hout1]
    exact hfind1
  · rw [hout1, hout2]

/-- Witness for C2 at a concrete input: one listing with id 1, initially
unsold; the first delivery marks it sold, the second changes nothing. -/
theorem webhook_redelivery_idempotent_witness :
    (WebhookBody.mk "checkout.session.completed" 1).event_type =
      "checkout.session.completed" ∧
    findListing [⟨1, "Bike", "red", 5, 1, "/images/b", false⟩] 1 =
      some ⟨1, "Bike", "red", 5, 1, "/images/b", false⟩ ∧
    ((stripe_webhook (some "whsec")
        [⟨1, "Bike", "red", 5, 1, "/images/b", false⟩]
        ⟨"checkout.session.completed", 1⟩
        (some (computeSignature "whsec"
          ⟨"checkout.session.completed", 1⟩))).response = .ok "success" ∧
      (stripe_webhook (some "whsec")
        (stripe_webhook (some "whsec")
          [⟨1, "Bike", "red", 5, 1, "/images/b", false⟩]
          ⟨"checkout.session.completed", 1⟩
          (some (computeSignature "whsec"
            ⟨"checkout.session.completed", 1⟩))).listings
        ⟨"checkout.session.completed", 1⟩
        (some (computeSignature "whsec"
          ⟨"checkout.session.completed", 1⟩))).response = .ok "success" ∧
      (Listing.mk 1 "Bike" "red" 5 1 "/images/b" false).sold = false ∧
      findListing (stripe_webhook (some "whsec")
        [⟨1, "Bike", "red", 5, 1, "/images/b", false⟩]
        ⟨"checkout.session.completed", 1⟩
        (some (computeSignature "whsec"
          ⟨"checkout.session.completed", 1⟩))).listings 1 =
        some ⟨1, "Bike", "red", 5, 1, "/images/b", true⟩ ∧
      (stripe_webhook (some "whsec")
        (stripe_webhook (some "whsec")
          [⟨1, "Bike", "red", 5, 1, "/images/b", false⟩]
          ⟨"checkout.session.completed", 1⟩
          (some (computeSignature "whsec"
            ⟨"checkout.session.completed", 1⟩))).listings
        ⟨"checkout.session.completed", 1⟩
        (some (computeSignature "whsec"
          ⟨"checkout.session.completed", 1⟩))).listings =
        (stripe_webhook (some "whsec")
          [⟨1, "Bike", "red", 5, 1, "/images/b", false⟩]
          ⟨"checkout.session.completed", 1⟩
          (some (computeSignature "whsec"
            ⟨"checkout.session.completed", 1⟩))).listings) :=
  ⟨rfl, by simp [findListing],
    webhook_redelivery_idempotent "whsec"
      [⟨1, "Bike", "red", 5, 1, "/images/b", false⟩]
      ⟨"checkout.session.completed", 1⟩
      ⟨1, "Bike", "red", 5, 1, "/images/b", false⟩ _ _ rfl
      (by simp [findListing]) rfl rfl rfl⟩

/-- C4: a webhook request whose signature header is missing or does not
verify over the delivered body under the shared secret is answered with an
HTTP 400 error, the listing table is untouched and no listing lookup
happens; the outcome does not depend on the parsing step at all, so the body
is never interpreted as business data. -/
theorem webhook_rejects_invalid_signature
    (parse : WebhookBody → Option StripeEvent) (secret : String)
    (ls : List Listing) (body : WebhookBody) (sig : Option WebhookSig)
    (hsig : sig ≠ some (computeSignature secret body)) :
    stripeWebhookWith parse (some secret) ls body sig =
      ⟨.err 400 "Webhook error: Invalid signature", ls, []⟩ := by
  simp only [stripeWebhookWith, constructEventWith, if_neg hsig]
  rfl

/-- Witness for C4 at a concrete input: a request with no signature header
is rejected with 400 and no lookup on a nonempty listing table. -/
theorem webhook_rejects_invalid_signature_witness :
    (none ≠ some (computeSignature "whsec" ⟨"checkout.session.completed", 1⟩)) ∧
    stripeWebhookWith parseStripeEvent (some "whsec")
        [⟨1, "Bike", "red", 5, 1, "/images/b", false⟩]
        ⟨"checkout.session.completed", 1⟩ none =
      ⟨.err 400 "Webhook error: Invalid signature",
       [⟨1, "Bike", "red", 5, 1, "/images/b", false⟩], []⟩ :=
  ⟨by simp,
    webhook_rejects_invalid_signature parseStripeEvent "whsec"
      [⟨1, "Bike", "red", 5, 1, "/images/b", false⟩]
      ⟨"checkout.session.completed", 1⟩ none (by simp)⟩

/-- C5: a validly-signed checkout-completed event whose metadata references
a listing id absent from the listing table is acknowledged with success and
the entire system state (listings, users, rate-limiter records) is returned
unchanged. -/
theorem webhook_unknown_listing_acknowledged (secret : String) (s : SysState)
    (body : WebhookBody)
    (hbody : body.event_type = "checkout.session.completed")
    (habsent : findListing s.listings body.metadata_listing_id = none) :
    applyOp (.opWebhook (some secret) body
        (some (computeSignature secret body))) s = (.ok "success", s) := by
  simp only [applyOp, stripe_webhook_valid_completed secret s.listings body
    hbody, habsent]

/-- Witness for C5 at a concrete input: the table holds only listing 2, the
event references listing 1. -/
theorem webhook_unknown_listing_acknowledged_witness :
    (WebhookBody.mk "checkout.session.completed" 1).event_type =
      "checkout.session.completed" ∧
    findListing [⟨2, "Bike", "red", 5, 1, "/images/b", false⟩] 1 = none ∧
    applyOp (.opWebhook (some "whsec") ⟨"checkout.session.completed", 1⟩
        (some (computeSignature "whsec" ⟨"checkout.session.completed", 1⟩)))
      ⟨[⟨7, "alice", "h", none⟩], [⟨2, "Bike", "red", 5, 1, "/images/b", false⟩], []⟩ =
      (.ok "success",
       ⟨[⟨7, "alice", "h", none⟩], [⟨2, "Bike", "red", 5, 1, "/images/b", false⟩], []⟩) :=
  ⟨rfl, by simp [findListing],
    webhook_unknown_listing_acknowledged "whsec"
      ⟨[⟨7, "alice", "h", none⟩], [⟨2, "Bike", "red", 5, 1, "/images/b", false⟩], []⟩
      ⟨"checkout.session.completed", 1⟩ rfl (by simp [findListing])⟩

theorem stripe_webhook_listings_cases (sec : Option String)
    (ls : List Listing) (body : WebhookBody) (sig : Option WebhookSig) :
    (stripe_webhook sec ls body sig).listings = ls ∨
    (stripe_webhook sec ls body sig).listings =
      markSold ls body.metadata_listing_id := by
  cases sec with
  | none => exact Or.inl rfl
  | some secret =>
    by_cases hsig : sig = some (computeSignature secret body)
    · simp only [stripe_webhook, stripeWebhookWith, constructEventWith,
        parseStripeEvent, if_pos hsig]
      by_cases ht : body.event_type = "checkout.session.completed"
      · simp only [ht, if_pos rfl]
        cases hf : findListing ls body.metadata_listing_id with
        | none => simp
        | some l2 => simp
      · simp [ht]
    · simp [stripe_webhook, stripeWebhookWith, constructEventWith,
        if_neg hsig]

/-- C3: a sold listing stays sold under every operation of the system:
whatever request is applied (registration, login, listing creation, checkout
creation in either backend, webhook delivery, forgot-password,
reset-password), a listing found sold before the request is still found and
still sold afterwards. -/
theorem sold_is_permanent (op : SysOp) (s : SysState) (i : Int) (l : Listing)
    (hfound : findListing s.listings i = some l) (hsold : l.sold = true) :
    ∃ l2, findListing (applyOp op s).2.listings i = some l2 ∧
      l2.sold = true := by
  cases op with
  | opRegister u p a =>
    simp only [applyOp, register]
    cases hu : findUserByName s.users u with
    | none => exact ⟨l, hfound, hsold⟩
    | some _ => exact ⟨l, hfound, hsold⟩
  | opLogin u p => exact ⟨l, hfound, hsold⟩
  | opCreateListing t d pr sid img =>
    simp only [applyOp, create_listing]
    cases hu : findUserById s.users sid with
    | none => exact ⟨l, hfound, hsold⟩
    | some seller => exact ⟨l, findListing_append_left hfound _, hsold⟩
  | opCheckoutFlat lid email => exact ⟨l, hfound, hsold⟩
  | opCheckoutConnect key lid email => exact ⟨l, hfound, hsold⟩
  | opWebhook sec body sig =>
    simp only [applyOp]
    rcases stripe_webhook_listings_cases sec s.listings body sig with h | h
    · rw [h]
      exact ⟨l, hfound, hsold⟩
    · rw [h, findListing_markSold, hfound]
      refine ⟨_, rfl, ?_⟩
      by_cases hlj : l.id = body.metadata_listing_id <;> simp [hlj, hsold]
  | opForgotPassword u now =>
    simp only [applyOp, forgot_password]
    cases hu : findUserByName s.users u with
    | none => exact ⟨l, hfound, hsold⟩
    | some _ => exact ⟨l, hfound, hsold⟩
  | opResetPassword tok pw now =>
    simp only [applyOp, reset_password]
    cases hv : verify_reset_token tok now with
    | none => exact ⟨l, hfound, hsold⟩
    | some uname =>
      dsimp only
      cases hu : findUserByName s.users uname with
      | none => exact ⟨l, hfound, hsold⟩
      | some _ => exact ⟨l, hfound, hsold⟩

/-- Witness for C3 at a concrete input: a second webhook delivery against an
already-sold listing leaves it sold. -/
theorem sold_is_permanent_witness :
    findListing [⟨1, "Bike", "red", 5, 1, "/images/b", true⟩] 1 =
      some ⟨1, "Bike", "red", 5, 1, "/images/b", true⟩ ∧
    ∃ l2, findListing (applyOp
        (.opWebhook (some "whsec") ⟨"checkout.session.completed", 1⟩
          (some (computeSignature "whsec" ⟨"checkout.session.completed", 1⟩)))
        ⟨[], [⟨1, "Bike", "red", 5, 1, "/images/b", true⟩], []⟩).2.listings
        1 = some l2 ∧ l2.sold = true :=
  ⟨by simp [findListing],
    sold_is_permanent
      (.opWebhook (some "whsec") ⟨"checkout.session.completed", 1⟩
        (some (computeSignature "whsec" ⟨"checkout.session.completed", 1⟩)))
      ⟨[], [⟨1, "Bike", "red", 5, 1, "/images/b", true⟩], []⟩ 1
      ⟨1, "Bike", "red", 5, 1, "/images/b", true⟩
      (by simp [findListing]) rfl⟩

/-- C6: a freshly issued reset token verifies to its username immediately,
and at any time strictly after the fixed 30-minute window it verifies to
none. -/
theorem reset_token_roundtrip_and_expiry (username : String) (now t : Int)
    (hlate : now + RESET_WINDOW_SECONDS < t) :
    verify_reset_token (create_reset_token now username) now =
      some username ∧
    verify_reset_token (create_reset_token now username) t = none := by
  constructor
  · simp only [verify_reset_token, create_reset_token, jwtEncode, jwtDecode,
      supportedAlgorithms, RESET_WINDOW_SECONDS]
    rw [if_pos (by simp), if_pos (by simp), if_pos trivial,
      if_neg (by omega)]
    rfl
  · simp only [verify_reset_token, create_reset_token, jwtEncode, jwtDecode,
      supportedAlgorithms, RESET_WINDOW_SECONDS] at hlate ⊢
    rw [if_pos (by simp), if_pos (by simp), if_pos trivial,
      if_pos (by omega)]
    rfl

/-- Witness for C6 at a concrete input: issued at time 0 for alice, verified
at time 0 and at time 1801 (one second past the 30-minute window). -/
theorem reset_token_roundtrip_and_expiry_witness :
    ((0:Int) + RESET_WINDOW_SECONDS < 1801) ∧
    (verify_reset_token (create_reset_token 0 "alice") 0 = some "alice" ∧
      verify_reset_token (create_reset_token 0 "alice") 1801 = none) :=
  ⟨by norm_num [RESET_WINDOW_SECONDS],
    reset_token_roundtrip_and_expiry "alice" 0 1801
      (by norm_num [RESET_WINDOW_SECONDS])⟩

/-- C7: verification accepts only HS256 tokens: any token whose header names
a different algorithm (including "none", and including the non-standard name
"H256" that appears in the allow-list but is not an algorithm PyJWT
implements) verifies to none. -/
theorem verify_reset_token_pins_HS256 (token : Jwt) (now : Int)
    (halg : token.alg ≠ "HS256") :
    verify_reset_token token now = none := by
  simp only [verify_reset_token, jwtDecode, supportedAlgorithms]
  by_cases h1 : token.alg ∈ (["H256", "HS256"] : List String)
  · have h256 : token.alg = "H256" := by
      rcases List.mem_cons.mp h1 with h | h
      · exact h
      · exact absurd (List.mem_singleton.mp h) halg
    rw [if_pos h1, if_neg (by rw [h256]; decide)]
    rfl
  · rw [if_neg h1]
    rfl

/-- Witness for C7 at a concrete input: a token for alice signed under the
correct secret but carrying algorithm name "none" is rejected. -/
theorem verify_reset_token_pins_HS256_witness :
    ((jwtEncode ⟨"alice", 9999⟩ RESET_TOKEN_SECRET "none").alg ≠ "HS256") ∧
    verify_reset_token (jwtEncode ⟨"alice", 9999⟩ RESET_TOKEN_SECRET "none")
      0 = none :=
  ⟨by simp [jwtEncode],
    verify_reset_token_pins_HS256
      (jwtEncode ⟨"alice", 9999⟩ RESET_TOKEN_SECRET "none") 0
      (by simp [jwtEncode])⟩

/-- C8: from a fresh record, five calls for the same identifier whose
timestamps all lie inside one 60-second window are allowed, the sixth call
still inside that window is denied, and a later call at least 60 seconds
after the oldest recorded attempt is allowed again; each call prunes
timestamps older than the window, denies at the cap of five, and otherwise
records the attempt. -/
theorem rate_limit_sliding_window (ip : String) (t1 t2 t3 t4 t5 t6 t7 : Rat)
    (b1 b2 b3 b4 b5 b6 b7 : Bool) (m1 m2 m3 m4 m5 m6 m7 : AttemptsMap)
    (h12 : t1 ≤ t2) (h23 : t2 ≤ t3) (h34 : t3 ≤ t4) (h45 : t4 ≤ t5)
    (h56 : t5 ≤ t6) (hwin : t6 < t1 + 60) (hroll : t1 + 60 ≤ t7)
    (h1 : rate_limit [] ip t1 5 60 = (b1, m1))
    (h2 : rate_limit m1 ip t2 5 60 = (b2, m2))
    (h3 : rate_limit m2 ip t3 5 60 = (b3, m3))
    (h4 : rate_limit m3 ip t4 5 60 = (b4, m4))
    (h5 : rate_limit m4 ip t5 5 60 = (b5, m5))
    (h6 : rate_limit m5 ip t6 5 60 = (b6, m6))
    (h7 : rate_limit m6 ip t7 5 60 = (b7, m7)) :
    b1 = true ∧ b2 = true ∧ b3 = true ∧ b4 = true ∧ b5 = true ∧
    b6 = false ∧ b7 = true := by
  have c21 : t2 - t1 < 60 := by linarith
  have c31 : t3 - t1 < 60 := by linarith
  have c32 : t3 - t2 < 60 := by linarith
  have c41 : t4 - t1 < 60 := by linarith
  have c42 : t4 - t2 < 60 := by linarith
  have c43 : t4 - t3 < 60 := by linarith
  have c51 : t5 - t1 < 60 := by linarith
  have c52 : t5 - t2 < 60 := by linarith
  have c53 : t5 - t3 < 60 := by linarith
  have c54 : t5 - t4 < 60 := by linarith
  have c61 : t6 - t1 < 60 := by linarith
  have c62 : t6 - t2 < 60 := by linarith
  have c63 : t6 - t3 < 60 := by linarith
  have c64 : t6 - t4 < 60 := by linarith
  have c65 : t6 - t5 < 60 := by linarith
  have e1 : rate_limit [] ip t1 5 60 = (true, [(ip, [t1])]) := by
    simp [rate_limit, getRecord, setRecord]
  rw [e1] at h1
  injection h1 with hb1 hm1
  subst hm1
  have e2 : rate_limit [(ip, [t1])] ip t2 5 60 =
      (true, [(ip, [t1, t2])]) := by
    simp [rate_limit, getRecord, setRecord, c21]
  rw [e2] at h2
  injection h2 with hb2 hm2
  subst hm2
  have e3 : rate_limit [(ip, [t1, t2])] ip t3 5 60 =
      (true, [(ip, [t1, t2, t3])]) := by
    simp [rate_limit, getRecord, setRecord, c31, c32]
  rw [e3] at h3
  injection h3 with hb3 hm3
  subst hm3
  have e4 : rate_limit [(ip, [t1, t2, t3])] ip t4 5 60 =
      (true, [(ip, [t1, t2, t3, t4])]) := by
    simp [rate_limit, getRecord, setRecord, c41, c42, c43]
  rw [e4] at h4
  injection h4 with hb4 hm4
  subst hm4
  have e5 : rate_limit [(ip, [t1, t2, t3, t4])] ip t5 5 60 =
      (true, [(ip, [t1, t2, t3, t4, t5])]) := by
    simp [rate_limit, getRecord, setRecord, c51, c52, c53, c54]
  rw [e5] at h5
  injection h5 with hb5 hm5
  subst hm5
  have e6 : rate_limit [(ip, [t1, t2, t3, t4, t5])] ip t6 5 60 =
      (false, [(ip, [t1, t2, t3, t4, t5])]) := by
    simp [rate_limit, getRecord, setRecord, c61, c62, c63, c64, c65]
  rw [e6] at h6
  injection h6 with hb6 hm6
  subst hm6
  have hnot : ¬ (t7 - t1 < 60) := by linarith
  have hlen : (List.filter (fun t => decide (t7 - t < 60))
      [t1, t2, t3, t4, t5]).length ≤ 4 := by
    rw [List.filter_cons]
    simp only [hnot, decide_False, Bool.false_eq_true, if_false]
    exact le_trans (List.length_filter_le _ _) (by norm_num)
  simp [rate_limit, getRecord, setRecord] at h7
  rw [if_neg (by omega)] at h7
  injection h7 with hb7 hm7
  exact ⟨hb1.symm, hb2.symm, hb3.symm, hb4.symm, hb5.symm, hb6.symm,
    hb7.symm⟩

/-- Witness for C8 at concrete times 0, 1, 2, 3, 4, 5 and 60 for one caller
identifier: five allowed, sixth denied, the call at time 60 (one window past
the oldest attempt) allowed again. -/
theorem rate_limit_sliding_window_witness :
    ((0:Rat) ≤ 1 ∧ (1:Rat) ≤ 2 ∧ (2:Rat) ≤ 3 ∧ (3:Rat) ≤ 4 ∧ (4:Rat) ≤ 5 ∧
      (5:Rat) < 0 + 60 ∧ (0:Rat) + 60 ≤ 60) ∧
    rate_limit [] "203.0.113.5" 0 5 60 = (true, [("203.0.113.5", [0])]) ∧
    rate_limit [("203.0.113.5", [0])] "203.0.113.5" 1 5 60 =
      (true, [("203.0.113.5", [0, 1])]) ∧
    rate_limit [("203.0.113.5", [0, 1])] "203.0.113.5" 2 5 60 =
      (true, [("203.0.113.5", [0, 1, 2])]) ∧
    rate_limit [("203.0.113.5", [0, 1, 2])] "203.0.113.5" 3 5 60 =
      (true, [("203.0.113.5", [0, 1, 2, 3])]) ∧
    rate_limit [("203.0.113.5", [0, 1, 2, 3])] "203.0.113.5" 4 5 60 =
      (true, [("203.0.113.5", [0, 1, 2, 3, 4])]) ∧
    rate_limit [("203.0.113.5", [0, 1, 2, 3, 4])] "203.0.113.5" 5 5 60 =
      (false, [("203.0.113.5", [0, 1, 2, 3, 4])]) ∧
    rate_limit [("203.0.113.5", [0, 1, 2, 3, 4])] "203.0.113.5" 60 5 60 =
      (true, [("203.0.113.5", [1, 2, 3, 4, 60])]) ∧
    (true = true ∧ true = true ∧ true = true ∧ true = true ∧ true = true ∧
      false = false ∧ true = true) :=
  ⟨by norm_num,
   by norm_num [rate_limit, getRecord, setRecord],
   by norm_num [rate_limit, getRecord, setRecord],
   by norm_num [rate_limit, getRecord, setRecord],
   by norm_num [rate_limit, getRecord, setRecord],
   by norm_num [rate_limit, getRecord, setRecord],
   by norm_num [rate_limit, getRecord, setRecord],
   by norm_num [rate_limit, getRecord, setRecord],
   rate_limit_sliding_window "203.0.113.5" 0 1 2 3 4 5 60
     true true true true true false true
     [("203.0.113.5", [0])] [("203.0.113.5", [0, 1])]
     [("203.0.113.5", [0, 1, 2])] [("203.0.113.5", [0, 1, 2, 3])]
     [("203.0.113.5", [0, 1, 2, 3, 4])] [("203.0.113.5", [0, 1, 2, 3, 4])]
     [("203.0.113.5", [1, 2, 3, 4, 60])]
     (by norm_num) (by norm_num) (by norm_num) (by norm_num) (by norm_num)
     (by norm_num) (by norm_num)
     (by norm_num [rate_limit, getRecord, setRecord])
     (by norm_num [rate_limit, getRecord, setRecord])
     (by norm_num [rate_limit, getRecord, setRecord])
     (by norm_num [rate_limit, getRecord, setRecord])
     (by norm_num [rate_limit, getRecord, setRecord])
     (by norm_num [rate_limit, getRecord, setRecord])
     (by norm_num [rate_limit, getRecord, setRecord])⟩

/-- C9 counterexample: caller 203.0.113.9 has five attempts inside the
current window, so the rate limiter would deny it, yet forgot-password for
an existing username still reports success and issues a reset token instead
of any throttling denial: the endpoint is not admitted through the rate
limiter. -/
theorem password_endpoints_not_rate_limited_cex :
    (rate_limit [("203.0.113.9", [0, 1, 2, 3, 4])] "203.0.113.9" 10 5 60).1 =
      false ∧
    (forgot_password
        ⟨[⟨1, "alice", "h", none⟩], [], [("203.0.113.9", [0, 1, 2, 3, 4])]⟩
        "alice" 10).1 = .ok "Reset link sent" ∧
    (forgot_password
        ⟨[⟨1, "alice", "h", none⟩], [], [("203.0.113.9", [0, 1, 2, 3, 4])]⟩
        "alice" 10).2.2 = some (create_reset_token 10 "alice") := by
  refine ⟨?_, ?_, ?_⟩
  · norm_num [rate_limit, getRecord, setRecord]
  · norm_num [forgot_password, findUserByName]
  · norm_num [forgot_password, findUserByName]

/-- C9 amended: POST /forgot-password and POST /reset-password never consult
the rate limiter at all: neither endpoint reads or updates the attempts map
(their outcome is unchanged under an arbitrary replacement of that map), and
neither ever returns anything but its business responses, so no caller is
ever throttled regardless of attempt count. -/
theorem password_endpoints_bypass_rate_limiter (users : List User)
    (ls : List Listing) (atts atts2 : AttemptsMap)
    (username password : String) (tok : Jwt) (now now2 : Int) :
    (forgot_password ⟨users, ls, atts⟩ username now).2.1 =
      ⟨users, ls, atts⟩ ∧
    (forgot_password ⟨users, ls, atts⟩ username now).1 =
      (forgot_password ⟨users, ls, atts2⟩ username now).1 ∧
    (reset_password ⟨users, ls, atts⟩ tok password now2).2.attempts = atts ∧
    (reset_password ⟨users, ls, atts⟩ tok password now2).1 =
      (reset_password ⟨users, ls, atts2⟩ tok password now2).1 ∧
    ((forgot_password ⟨users, ls, atts⟩ username now).1 =
        .err 400 "User not found" ∨
      (forgot_password ⟨users, ls, atts⟩ username now).1 =
        .ok "Reset link sent") ∧
    ((reset_password ⟨users, ls, atts⟩ tok password now2).1 =
        .err 400 "Invalid or expired token" ∨
      (reset_password ⟨users, ls, atts⟩ tok password now2).1 =
        .err 400 "User not found" ∨
      (reset_password ⟨users, ls, atts⟩ tok password now2).1 =
        .ok "Password updated") := by
  refine ⟨?_, ?_, ?_, ?_, ?_, ?_⟩
  · unfold forgot_password
    cases hu : findUserByName users username <;> rfl
  · unfold forgot_password
    cases hu : findUserByName users username <;> rfl
  · unfold reset_password
    cases hv : verify_reset_token tok now2 with
    | none => rfl
    | some uname =>
      dsimp only
      cases hu : findUserByName users uname <;> rfl
  · unfold reset_password
    cases hv : verify_reset_token tok now2 with
    | none => rfl
    | some uname =>
      dsimp only
      cases hu : findUserByName users uname <;> rfl
  · unfold forgot_password
    cases hu : findUserByName users username
    · exact Or.inl rfl
    · exact Or.inr rfl
  · unfold reset_password
    cases hv : verify_reset_token tok now2 with
    | none => exact Or.inl rfl
    | some uname =>
      dsimp only
      cases hu : findUserByName users uname with
      | none => exact Or.inr (Or.inl rfl)
      | some _ => exact Or.inr (Or.inr rfl)

/-- C10: the forgot-password endpoint answers with the error
"User not found" exactly when no account has that username and with success
"Reset link sent" exactly when one does, so its observable outcome tells any
caller whether a username is registered. -/
theorem forgot_password_reveals_registration (s : SysState)
    (username : String) (now : Int) :
    ((forgot_password s username now).1 = .err 400 "User not found" ↔
      findUserByName s.users username = none) ∧
    ((forgot_password s username now).1 = .ok "Reset link sent" ↔
      ∃ u, findUserByName s.users username = some u) := by
  unfold forgot_password
  cases hu : findUserByName s.users username <;> simp

theorem int_log2_eq {r : Rat} {z : Int} (hr : 0 < r)
    (h1 : (2:Rat) ^ z ≤ r) (h2 : r < (2:Rat) ^ (z + 1)) :
    Int.log 2 r = z := by
  have hb : (1:Nat) < 2 := by norm_num
  have hcast : ((2:Nat):Rat) = (2:Rat) := by norm_num
  refine le_antisymm ?_ ?_
  · have hlt := (Int.lt_zpow_iff_log_lt hb hr).mp (by rw [hcast]; exact h2)
    omega
  · exact (Int.zpow_le_iff_le_log hb hr).mp (by rw [hcast]; exact h1)

theorem roundToDouble_eval {q : Rat} {z : Int} (hq : 0 < q)
    (h1 : (2:Rat) ^ z ≤ q) (h2 : q < (2:Rat) ^ (z + 1)) :
    roundToDouble q = (pyRound (q / 2 ^ (z - 52)) : Rat) * 2 ^ (z - 52) := by
  unfold roundToDouble
  rw [if_neg (ne_of_gt hq), abs_of_pos hq, int_log2_eq hq h1 h2]

theorem roundToDouble_nineteen :
    roundToDouble (1999/100) = 5626684784446013 / 2 ^ 48 := by
  rw [roundToDouble_eval (z := 4) (by norm_num) (by norm_num) (by norm_num)]
  have harg : (1999:Rat)/100 / 2 ^ ((4:Int) - 52) =
      140667119611150336/25 := by
    norm_num
  rw [harg]
  have hround : pyRound ((140667119611150336:Rat)/25) =
      5626684784446013 := by
    unfold pyRound
    rw [show Int.floor ((140667119611150336:Rat)/25) = 5626684784446013 by
      norm_num]
    norm_num
  rw [hround]
  norm_num

theorem roundToDouble_nineteen_product :
    roundToDouble ((5626684784446013:Rat) / 2 ^ 48 * 100) =
      8791694975696895 / 2 ^ 42 := by
  rw [roundToDouble_eval (z := 10) (by norm_num) (by norm_num) (by norm_num)]
  have harg : (5626684784446013:Rat) / 2 ^ 48 * 100 / 2 ^ ((10:Int) - 52) =
      140667119611150325/16 := by
    norm_num
  rw [harg]
  have hround : pyRound ((140667119611150325:Rat)/16) =
      8791694975696895 := by
    unfold pyRound
    rw [show Int.floor ((140667119611150325:Rat)/16) = 8791694975696895 by
      norm_num]
    norm_num
  rw [hround]
  norm_num

theorem pyTrunc_nineteen_product :
    pyTrunc ((8791694975696895:Rat) / 2 ^ 42) = 1998 := by
  unfold pyTrunc
  rw [if_pos (by norm_num)]
  norm_num

theorem pyRound_nineteen_product :
    pyRound ((8791694975696895:Rat) / 2 ^ 42) = 1999 := by
  unfold pyRound
  rw [show Int.floor ((8791694975696895:Rat) / 2 ^ 42) = 1998 by norm_num]
  norm_num

theorem roundToDouble_half_exact : roundToDouble ((625:Rat)/2) = 625/2 := by
  rw [roundToDouble_eval (z := 8) (by norm_num) (by norm_num) (by norm_num)]
  have harg : (625:Rat)/2 / 2 ^ ((8:Int) - 52) = 5497558138880000 := by
    norm_num
  rw [harg]
  have hround : pyRound ((5497558138880000:Rat)) = 5497558138880000 := by
    unfold pyRound
    rw [show Int.floor ((5497558138880000:Rat)) = 5497558138880000 by
      norm_num]
    norm_num
  rw [hround]
  norm_num

/-- C1 counterexample: at price 3.125 (it, 3.125 * 100 and 312.5 are exact
binary doubles, so the binary64 rounding is the identity here)
round-half-away-from-zero of price * 100 is 313, but the Connect backend
request carries amount 312 (Python round() rounds half to even) and the flat
backend request also carries 312 (int() truncates): the amount sent is not
round-half-away-from-zero(price * 100).  Moreover, at the double stored for
19.99 the flat backend carries 1998, not the 1999 the claim asserts, because
the binary64 product 19.99 * 100 is 1998.9999999999998 and int() truncates
it. -/
theorem checkout_amount_rounding_cex :
    (Backend.create_checkout_session "sk_test"
        [⟨1, "seller", "h", some "acct_X"⟩]
        [⟨1, "Item", "desc", 25/8, 1, "/images/i", false⟩]
        1 "buyer").2 =
      some ⟨312, "usd", "buyer", "Item", 123, "acct_X"⟩ ∧
    (App.create_checkout_session
        [⟨1, "Item", "desc", 25/8, 1, "/images/i", false⟩] 1 "buyer").2 =
      some ⟨312, "usd", "buyer", "Item", 1⟩ ∧
    roundHalfAwayFromZero ((25 : Rat)/8 * 100) = 313 ∧
    (312 : Int) ≠ roundHalfAwayFromZero ((25 : Rat)/8 * 100) ∧
    (App.create_checkout_session
        [⟨1, "Item", "desc", roundToDouble (1999/100), 1, "/images/i",
          false⟩] 1 "buyer").2 =
      some ⟨1998, "usd", "buyer", "Item", 1⟩ ∧
    (1998 : Int) ≠ 1999 := by
  have hmul : ((25 : Rat)/8 * 100) = 625/2 := by norm_num
  have hdouble : roundToDouble ((25 : Rat)/8 * 100) = 625/2 := by
    rw [hmul]
    exact roundToDouble_half_exact
  have hfloor : Int.floor ((625 : Rat)/2) = 312 := by norm_num
  have hround : pyRound (roundToDouble ((25 : Rat)/8 * 100)) = 312 := by
    rw [hdouble]
    unfold pyRound
    rw [hfloor]
    norm_num
  have htrunc : pyTrunc (roundToDouble ((25 : Rat)/8 * 100)) = 312 := by
    rw [hdouble]
    unfold pyTrunc
    rw [if_pos (by norm_num), hfloor]
  have haway : roundHalfAwayFromZero ((25 : Rat)/8 * 100) = 313 := by
    rw [hmul]
    unfold roundHalfAwayFromZero
    rw [if_pos (by norm_num)]
    norm_num
  have htrunc19 : pyTrunc (roundToDouble
      (roundToDouble ((1999:Rat)/100) * 100)) = 1998 := by
    rw [roundToDouble_nineteen, roundToDouble_nineteen_product]
    exact pyTrunc_nineteen_product
  refine ⟨?_, ?_, haway, ?_, ?_, by norm_num⟩
  · simp [Backend.create_checkout_session, findListing, findUserById,
      Backend.PLATFORM_FEE_CENTS, hround]
  · simp [App.create_checkout_session, findListing, htrunc]
  · rw [haway]
    norm_num
  · simp [App.create_checkout_session, findListing, htrunc19]

/-- C1 amended: for every listing that passes the preconditions, the Connect
backend sends amount = round(price * 100) where the product is computed in
binary64 and Python round() rounds half to even, together with
application_fee 123 and destination = the seller payout account reference,
while the flat backend sends amount = int(price * 100), the binary64 product
truncated, with no fee split; at the double stored for 19.99 the Connect
amount is 1999 minor units and the flat amount is 1998. -/
theorem checkout_amount_code_rounding (stripe_key : String)
    (users : List User) (ls : List Listing) (lid : Int) (email : String)
    (listing : Listing) (seller : User) (acct : String)
    (hkey : stripe_key ≠ "")
    (hl : findListing ls lid = some listing)
    (hsold : listing.sold = false)
    (hs : findUserById users listing.seller_id = some seller)
    (hacct : seller.stripe_account_id = some acct) :
    (Backend.create_checkout_session stripe_key users ls lid email).2 =
      some ⟨pyRound (roundToDouble (listing.price * 100)), "usd", email,
            listing.title, Backend.PLATFORM_FEE_CENTS, acct⟩ ∧
    (App.create_checkout_session ls lid email).2 =
      some ⟨pyTrunc (roundToDouble (listing.price * 100)), "usd", email,
            listing.title, listing.id⟩ ∧
    (listing.price = roundToDouble (1999/100) →
      pyRound (roundToDouble (listing.price * 100)) = 1999 ∧
      pyTrunc (roundToDouble (listing.price * 100)) = 1998) := by
  refine ⟨?_, ?_, ?_⟩
  · simp [Backend.create_checkout_session, hkey, hl, hsold, hs, hacct]
  · simp [App.create_checkout_session, hl, hsold]
  · intro hp
    rw [hp, roundToDouble_nineteen, roundToDouble_nineteen_product]
    exact ⟨pyRound_nineteen_product, pyTrunc_nineteen_product⟩

/-- Witness for C1 amended at a concrete input: one listing priced with the
double stored for 19.99 whose seller carries payout account acct_X; the
Connect request carries amount 1999, fee 123 and destination acct_X, the
flat request carries amount 1998. -/
theorem checkout_amount_code_rounding_witness :
    (("sk_test" : String) ≠ "" ∧
      findListing [⟨1, "Item", "desc", roundToDouble (1999/100), 1,
          "/images/i", false⟩] 1 =
        some ⟨1, "Item", "desc", roundToDouble (1999/100), 1, "/images/i",
          false⟩ ∧
      findUserById [⟨1, "seller", "h", some "acct_X"⟩] 1 =
        some ⟨1, "seller", "h", some "acct_X"⟩) ∧
    ((Backend.create_checkout_session "sk_test"
        [⟨1, "seller", "h", some "acct_X"⟩]
        [⟨1, "Item", "desc", roundToDouble (1999/100), 1, "/images/i",
          false⟩] 1 "buyer").2 =
      some ⟨pyRound (roundToDouble (roundToDouble ((1999:Rat)/100) * 100)),
            "usd", "buyer", "Item", Backend.PLATFORM_FEE_CENTS, "acct_X"⟩ ∧
    (App.create_checkout_session
        [⟨1, "Item", "desc", roundToDouble (1999/100), 1, "/images/i",
          false⟩] 1 "buyer").2 =
      some ⟨pyTrunc (roundToDouble (roundToDouble ((1999:Rat)/100) * 100)),
            "usd", "buyer", "Item", 1⟩ ∧
    (roundToDouble ((1999:Rat)/100) = roundToDouble (1999/100) →
      pyRound (roundToDouble (roundToDouble ((1999:Rat)/100) * 100)) =
        1999 ∧
      pyTrunc (roundToDouble (roundToDouble ((1999:Rat)/100) * 100)) =
        1998)) :=
  ⟨⟨by simp, by simp [findListing], by simp [findUserById]⟩,
    checkout_amount_code_rounding "sk_test"
      [⟨1, "seller", "h", some "acct_X"⟩]
      [⟨1, "Item", "desc", roundToDouble (1999/100), 1, "/images/i", false⟩]
      1 "buyer"
      ⟨1, "Item", "desc", roundToDouble (1999/100), 1, "/images/i", false⟩
      ⟨1, "seller", "h", some "acct_X"⟩ "acct_X"
      (by simp) (by simp [findListing]) rfl (by simp [findUserById]) rfl⟩

end RCMP
